import Mathlib

/-!
Verification development for the production CDC sync subsystem of the
Complaint-Gram repository (FinalProjectPOC/production/src).  The Lean
definitions below are shallow embeddings of the Python source: pure
functions become Lean functions, mutation of `self` state becomes explicit
state passing, external calls that can raise become oracle parameters of
type `Option`/`Except`, and Python ints are modelled as `Int`/`Nat`.
File-by-file origin of each definition is recorded in its doc comment.
-/

set_option linter.unusedVariables false

namespace CDCSync

/-! ## Configuration model (config_manager.py) -/

/-- Embeds `TableConfig` (config_manager.py, lines 42-51).  Fields not used
by any verified operation (sync_mode, batch_size, sync_interval) are
omitted; `enabled` defaults to true as in the source. -/
structure TableConfig where
  source_table : String
  target_table : String
  primary_key : String
  columns : List String
  enabled : Bool := true
  deriving Repr, DecidableEq

/-- Embeds `ErrorHandlingConfig` (config_manager.py, lines 92-100), with the
source defaults.  `max_retries` is a Nat: it is only compared against
non-negative retry/error counters.  Delays are Int milliseconds. -/
structure ErrorHandlingConfig where
  max_retries : Nat := 3
  retry_delay : Int := 5000
  exponential_backoff : Bool := true
  max_retry_delay : Int := 300000
  dead_letter_queue : Bool := true
  alert_on_error : Bool := true
  deriving Repr, DecidableEq

/-- Embeds the slice of `ProductionConfigManager` that `validate_config`
reads (config_manager.py, lines 124-144): the two endpoint hosts and the
full table list (`self.tables`, enabled or not). -/
structure ProductionConfigModel where
  postgres_host : String
  starrocks_host : String
  tables : List TableConfig
  deriving Repr, DecidableEq

/-- Models the string rendering of a pydantic `TableConfig` that the
f-strings of `validate_config` interpolate.  The verified properties only
need this rendering to be a function of the table, never its exact text. -/
def tableRepr (t : TableConfig) : String :=
  t.source_table ++ "/" ++ t.target_table ++ "/" ++ t.primary_key

/-- Embeds `ProductionConfigManager.validate_config` (config_manager.py,
lines 325-348).  Python truthiness `not s` on a string is `s = ""` and
`not self.tables` on a list is `tables = []`; errors are appended in
source order: postgres host, starrocks host, empty table list, then per
table the source-name, target-name and primary-key checks. -/
def validate_config (m : ProductionConfigModel) : List String :=
  (if m.postgres_host = "" then ["PostgreSQL host is required"] else []) ++
  (if m.starrocks_host = "" then ["StarRocks host is required"] else []) ++
  (if m.tables = [] then ["At least one table configuration is required"] else []) ++
  m.tables.flatMap (fun t =>
    (if t.source_table = "" then ["Source table name is required for table " ++ tableRepr t] else []) ++
    (if t.target_table = "" then ["Target table name is required for table " ++ tableRepr t] else []) ++
    (if t.primary_key = "" then ["Primary key is required for table " ++ tableRepr t] else []))

/-! ## Error classification (error_handler.py) -/

/-- Embeds `ErrorSeverity` (error_handler.py, lines 24-29). -/
inductive ErrorSeverity where
  | low | medium | high | critical
  deriving Repr, DecidableEq

/-- Embeds `ErrorCategory` (error_handler.py, lines 32-40). -/
inductive ErrorCategory where
  | connection | data_validation | processing | checkpoint
  | configuration | system | unknown
  deriving Repr, DecidableEq

/-- The Python exception classes the classifier dispatches on
(error_handler.py, lines 205-236), plus `runtimeError` standing for any
exception matching none of the listed classes. -/
inductive ExcKind where
  | connectionError | timeoutError | valueError | typeError
  | keyboardInterrupt | systemExit | memoryError | osError
  | runtimeError
  deriving Repr, DecidableEq

/-- Python `type(exception).__name__` for each modelled class. -/
def excName : ExcKind → String
  | .connectionError => "ConnectionError"
  | .timeoutError => "TimeoutError"
  | .valueError => "ValueError"
  | .typeError => "TypeError"
  | .keyboardInterrupt => "KeyboardInterrupt"
  | .systemExit => "SystemExit"
  | .memoryError => "MemoryError"
  | .osError => "OSError"
  | .runtimeError => "RuntimeError"

/-- Python `isinstance(e, (ConnectionError, TimeoutError))`. -/
def isConnectionOrTimeout : ExcKind → Bool
  | .connectionError => true
  | .timeoutError => true
  | _ => false

/-- Python `isinstance(e, (ValueError, TypeError))`. -/
def isValueOrType : ExcKind → Bool
  | .valueError => true
  | .typeError => true
  | _ => false

/-- Python `isinstance(e, (KeyboardInterrupt, SystemExit))`. -/
def isInterruptOrExit : ExcKind → Bool
  | .keyboardInterrupt => true
  | .systemExit => true
  | _ => false

/-- Python `isinstance(e, (MemoryError, OSError))`.  In the CPython class
hierarchy `ConnectionError` and `TimeoutError` are subclasses of
`OSError`, so they satisfy this test as well. -/
def isMemoryOrOS : ExcKind → Bool
  | .memoryError => true
  | .osError => true
  | .connectionError => true
  | .timeoutError => true
  | _ => false

/-- Whether the class derives from `Exception` (everything except
`KeyboardInterrupt` and `SystemExit`, which derive only from
`BaseException` and so escape an `except Exception` clause). -/
def isExceptionSubclass (e : ExcKind) : Bool :=
  !(isInterruptOrExit e)

/-- Embeds `ErrorContext` (error_handler.py, lines 43-52).  The wall-clock
`timestamp` and the free-form `additional_data` bag feed only log output
and are not modelled. -/
structure ErrorContext where
  table : Option String := none
  operation : Option String := none
  batch_id : Option String := none
  checkpoint_id : Option String := none
  retry_count : Nat := 0
  deriving Repr, DecidableEq

/-- Embeds `SyncError` (error_handler.py, lines 55-66); the original
exception is kept as its modelled class. -/
structure SyncError where
  error_type : String
  message : String
  severity : ErrorSeverity
  category : ErrorCategory
  context : ErrorContext
  original_exception : Option ExcKind := none
  retryable : Bool := true
  max_retries : Nat := 3
  retry_delay : Int := 5000
  deriving Repr, DecidableEq

/-- Embeds `ErrorHandler._determine_severity` (error_handler.py, lines
205-214).  The context argument is present in the source signature and
never read. -/
def determine_severity (exc : ExcKind) (ctx : ErrorContext) : ErrorSeverity :=
  if isConnectionOrTimeout exc then .high
  else if isValueOrType exc then .medium
  else if isInterruptOrExit exc then .critical
  else .medium

/-- Embeds `ErrorHandler._determine_category` (error_handler.py, lines
216-225); the context argument is never read. -/
def determine_category (exc : ExcKind) (ctx : ErrorContext) : ErrorCategory :=
  if isConnectionOrTimeout exc then .connection
  else if isValueOrType exc then .data_validation
  else if isMemoryOrOS exc then .system
  else .unknown

/-- Embeds `ErrorHandler._is_retryable` (error_handler.py, lines 227-236);
the context argument is never read. -/
def is_retryable (exc : ExcKind) (ctx : ErrorContext) : Bool :=
  if isInterruptOrExit exc then false
  else if isValueOrType exc then false
  else if isConnectionOrTimeout exc then true
  else true

/-- Embeds `ErrorHandler._classify_error` (error_handler.py, lines
175-203): builds a `SyncError` from the exception, its message and the
context, copying max_retries and retry_delay from the active config. -/
def classify_error (cfg : ErrorHandlingConfig) (exc : ExcKind) (msg : String)
    (ctx : ErrorContext) : SyncError :=
  { error_type := excName exc
    message := msg
    severity := determine_severity exc ctx
    category := determine_category exc ctx
    context := ctx
    original_exception := some exc
    retryable := is_retryable exc ctx
    max_retries := cfg.max_retries
    retry_delay := cfg.retry_delay }

/-- Embeds `ErrorHandler._calculate_retry_delay` (error_handler.py, lines
325-334): with exponential backoff the delay is
`min (base_delay * 2 ^ retry_count) max_retry_delay`, otherwise the base
delay, where base_delay is the retry_delay carried by the record. -/
def calculate_retry_delay (cfg : ErrorHandlingConfig) (e : SyncError) : Int :=
  let base_delay := e.retry_delay
  if cfg.exponential_backoff then
    min (base_delay * 2 ^ e.context.retry_count) cfg.max_retry_delay
  else
    base_delay

/-! ## Error handler state and retry pipeline (error_handler.py) -/

/-- Mutable state of `ErrorHandler` (error_handler.py, lines 85-88):
error counts keyed by table/error-type, the bounded error history, the
dead-letter list, and the retries scheduled via `asyncio.create_task`
(each recorded with its computed delay in milliseconds). -/
structure ErrorHandlerState where
  error_counts : List (String × Nat) := []
  error_history : List SyncError := []
  dead_letter_queue : List SyncError := []
  scheduled_retries : List (SyncError × Int) := []
  deriving Repr, DecidableEq

/-- Embeds `ErrorHandler._send_to_dead_letter_queue` (error_handler.py,
lines 359-363): the record is appended only when the config flag
`error_handling.dead_letter_queue` is set. -/
def send_to_dead_letter_queue (cfg : ErrorHandlingConfig)
    (st : ErrorHandlerState) (e : SyncError) : ErrorHandlerState :=
  if cfg.dead_letter_queue then
    { st with dead_letter_queue := st.dead_letter_queue ++ [e] }
  else
    st

/-- Embeds `ErrorHandler._handle_retry` (error_handler.py, lines 295-314):
an exhausted record (retry_count at or above its max_retries) goes to the
dead-letter queue and nothing else happens; otherwise a retry is
scheduled after the computed backoff delay.  The record itself is not
changed here: retry_count is incremented only later, inside
`_schedule_retry`, when the scheduled task fires. -/
def handle_retry (cfg : ErrorHandlingConfig) (st : ErrorHandlerState)
    (e : SyncError) : ErrorHandlerState :=
  if e.max_retries ≤ e.context.retry_count then
    send_to_dead_letter_queue cfg st e
  else
    { st with scheduled_retries := st.scheduled_retries ++ [(e, calculate_retry_delay cfg e)] }

/-- Embeds `ErrorHandler._handle_non_retryable_error` (error_handler.py,
lines 316-323): log and send to the dead-letter queue. -/
def handle_non_retryable_error (cfg : ErrorHandlingConfig)
    (st : ErrorHandlerState) (e : SyncError) : ErrorHandlerState :=
  send_to_dead_letter_queue cfg st e

/-- The retryable dispatch inside `handle_error` (error_handler.py, lines
157-160): retryable records enter `_handle_retry`, the rest enter
`_handle_non_retryable_error`. -/
def dispatch_retry (cfg : ErrorHandlingConfig) (st : ErrorHandlerState)
    (e : SyncError) : ErrorHandlerState :=
  if e.retryable then handle_retry cfg st e
  else handle_non_retryable_error cfg st e

/-- Python str of an optional string, as an f-string renders it: `None`
for an absent value. -/
def optStr : Option String → String
  | none => "None"
  | some s => s

/-- Bump a key in an association list by one, as
`self.error_counts.get(key, 0) + 1` does. -/
def bumpCount (counts : List (String × Nat)) (key : String) : List (String × Nat) :=
  match counts.find? (fun p => p.1 = key) with
  | some p => counts.map (fun q => if q.1 = key then (q.1, q.2 + 1) else q)
  | none => counts ++ [(key, 1)]

/-- Embeds `ErrorHandler._update_error_counts` (error_handler.py, lines
365-368): the key is the f-string `table_errortype`. -/
def update_error_counts (st : ErrorHandlerState) (e : SyncError) : ErrorHandlerState :=
  { st with error_counts := bumpCount st.error_counts (optStr e.context.table ++ "_" ++ e.error_type) }

/-- Embeds the error-history upkeep of `handle_error` (error_handler.py,
lines 165-170): append, then truncate to the most recent 500 entries once
the history exceeds 1000. -/
def append_error_history (st : ErrorHandlerState) (e : SyncError) : ErrorHandlerState :=
  let h := st.error_history ++ [e]
  { st with error_history := if 1000 < h.length then h.drop (h.length - 500) else h }

/-- Oracle for the faults the fallible sub-steps of `handle_error` can
raise: the structured-logging call in `_log_error`, the monitoring
dispatch in `_send_to_monitoring`, and the logging inside the retry
handling.  `none` means the step completes normally. -/
structure StepFaults where
  log_fault : Option ExcKind := none
  monitoring_fault : Option ExcKind := none
  retry_log_fault : Option ExcKind := none
  deriving Repr, DecidableEq

/-- Embeds the `try/except Exception` wrapper inside
`_send_to_monitoring` (error_handler.py, lines 264-293): a fault deriving
from `Exception` is swallowed there; only a bare `BaseException` escapes
to the caller. -/
def send_to_monitoring_escape : Option ExcKind → Option ExcKind
  | some e => if isExceptionSubclass e then none else some e
  | none => none

/-- The outer `except Exception` clause of `handle_error`
(error_handler.py, lines 172-173): a fault deriving from `Exception` is
logged and the call returns normally with the state as mutated so far;
anything else propagates to the caller. -/
def outer_catch (st : ErrorHandlerState) (e : ExcKind) :
    Except ExcKind ErrorHandlerState :=
  if isExceptionSubclass e then .ok st else .error e

/-- Embeds `ErrorHandler.handle_error` (error_handler.py, lines 135-173).
Steps in source order: default the context, classify (pure), log the
record, send it to monitoring, run the retryable dispatch, update the
error counts, append to the bounded history.  Each fallible step is
driven by the `StepFaults` oracle; a fault stops the remaining steps and
hits the outer `except Exception` clause. -/
def handle_error (cfg : ErrorHandlingConfig) (st : ErrorHandlerState)
    (exc : ExcKind) (msg : String) (ectx : Option ErrorContext)
    (f : StepFaults) : Except ExcKind ErrorHandlerState :=
  let ctx := ectx.getD {}
  let se := classify_error cfg exc msg ctx
  match f.log_fault with
  | some e => outer_catch st e
  | none =>
    match send_to_monitoring_escape f.monitoring_fault with
    | some e => outer_catch st e
    | none =>
      match f.retry_log_fault with
      | some e => outer_catch st e
      | none =>
        let st1 := dispatch_retry cfg st se
        let st2 := update_error_counts st1 se
        .ok (append_error_history st2 se)

/-- Every oracle fault derives from `Exception` (true of every failure the
sub-steps of `handle_error` can deterministically raise: logging,
monitoring and queue manipulation raise Exception subclasses). -/
def StepFaults.catchable (f : StepFaults) : Bool :=
  f.log_fault.all isExceptionSubclass &&
  f.monitoring_fault.all isExceptionSubclass &&
  f.retry_log_fault.all isExceptionSubclass

/-! ## Sync orchestrator (production_sync.py) -/

/-- Embeds `SyncStatus` (production_sync.py, lines 24-30). -/
inductive SyncStatus where
  | stopped | starting | running | error | stopping
  deriving Repr, DecidableEq

/-- Embeds `SyncJob` (production_sync.py, lines 33-41). -/
structure SyncJob where
  table_config : TableConfig
  status : SyncStatus
  start_time : Option Int := none
  last_checkpoint : Option Int := none
  error_count : Nat := 0
  last_error : Option String := none
  deriving Repr, DecidableEq

/-- Embeds `ProductionSyncApp._start_sync_job` (production_sync.py, lines
159-182).  The three awaited engine calls (create source table, create
sink table, execute the sync query) are external and summarised by one
`Except` oracle; `now` stands for `time.time()`.  Returns the final job
together with the ordered list of statuses assigned to `job.status`
during the call.  The forwarding of a raised fault to
`error_handler.handle_error` acts on the separately modelled
`ErrorHandlerState` and does not touch the job. -/
def start_sync_job (now : Int) (job : SyncJob)
    (outcome : Except ExcKind Unit) : SyncJob × List SyncStatus :=
  let j1 : SyncJob := { job with status := .starting, start_time := some now }
  match outcome with
  | .ok _ => ({ j1 with status := .running }, [.starting, .running])
  | .error e =>
    ({ j1 with
        status := .error
        error_count := j1.error_count + 1
        last_error := some (excName e) }, [.starting, .error])

/-- Embeds `ProductionSyncApp._stop_sync_job` (production_sync.py, lines
184-197): the job is driven through Stopping to Stopped; the body has no
external engine call (the cancellation is a stub in the source), so it
always completes.  Returns the final job and the statuses assigned. -/
def stop_sync_job (job : SyncJob) : SyncJob × List SyncStatus :=
  let j1 : SyncJob := { job with status := .stopping }
  ({ j1 with status := .stopped }, [.stopping, .stopped])

/-- Embeds `ProductionSyncApp._check_job_health` (production_sync.py,
lines 299-314): a job in Error is restarted through `_start_sync_job`
only while `error_count < config.error_handling.max_retries`; afterwards
`record_job_status` is called with the current status of the (possibly
mutated) job.  Returns the job, whether a restart was attempted, and the
status pushed to the metrics collector. -/
def check_job_health (cfg : ErrorHandlingConfig) (now : Int) (job : SyncJob)
    (outcome : Except ExcKind Unit) : SyncJob × Bool × SyncStatus :=
  if job.status = .error then
    if job.error_count < cfg.max_retries then
      let j := (start_sync_job now job outcome).1
      (j, true, j.status)
    else
      (job, false, job.status)
  else
    (job, false, job.status)

/-- Iterates the supervisory check of `_monitor_jobs` (production_sync.py,
lines 286-297) on a single job: each list entry supplies the wall clock
and the engine outcome of one monitoring cycle. -/
def monitor_iterations (cfg : ErrorHandlingConfig)
    (steps : List (Int × Except ExcKind Unit)) (job : SyncJob) : SyncJob :=
  steps.foldl (fun j s => (check_job_health cfg s.1 j s.2).1) job

/-! ## Metrics registry (metrics_collector.py) -/

/-- The value `get_metrics_summary` reads out of one registered metric:
the numeric value of an unlabelled gauge, or the `N/A` placeholder for a
metric without a readable scalar value (all the labelled counters,
histograms and labelled gauges of this registry). -/
inductive SummaryValue where
  | num (v : Int)
  | na
  deriving Repr, DecidableEq

/-- The keys of `self.metrics`, in the insertion order of
`_init_prometheus_metrics` (metrics_collector.py, lines 61-141). -/
def metricNames : List String :=
  ["records_processed", "records_failed", "checkpoints_completed",
   "checkpoints_failed", "processing_latency", "batch_size",
   "active_jobs", "error_jobs", "last_checkpoint_time",
   "throughput", "lag_seconds"]

/-- The two unlabelled gauges of the registry, the only metrics whose
scalar value any verified operation reads or writes
(metrics_collector.py, lines 110-120). -/
structure MetricsState where
  active_jobs : Int := 0
  error_jobs : Int := 0
  deriving Repr, DecidableEq

/-- Embeds `MetricsCollector.get_metrics_summary` (metrics_collector.py,
lines 295-311): one entry per registered metric name; the unlabelled
gauges expose their value, every other metric yields the `N/A`
placeholder. -/
def get_metrics_summary (ms : MetricsState) : List (String × SummaryValue) :=
  metricNames.map (fun n =>
    if n = "active_jobs" then (n, SummaryValue.num ms.active_jobs)
    else if n = "error_jobs" then (n, SummaryValue.num ms.error_jobs)
    else (n, SummaryValue.na))

/-- Embeds `MetricsCollector.record_app_metrics` (metrics_collector.py,
lines 226-233): each supplied name is applied only when it is a key of
`self.metrics`; the unlabelled gauges take `set(value)`.  A registered
name that is not an unlabelled gauge would dispatch to a labelled
metric; no caller passes such a name, and the branch leaves the gauges
untouched. -/
def record_app_metrics (ms : MetricsState) (updates : List (String × Int)) :
    MetricsState :=
  updates.foldl (fun s u =>
    if metricNames.contains u.1 then
      if u.1 = "active_jobs" then { s with active_jobs := u.2 }
      else if u.1 = "error_jobs" then { s with error_jobs := u.2 }
      else s
    else s) ms

/-- Embeds one iteration of `ProductionSyncApp._collect_metrics`
(production_sync.py, lines 316-331): the dictionary passed to
`record_app_metrics` carries the count of Running jobs under the key
`running_jobs`, the count of Error jobs under `error_jobs`, and the
total job count under `total_jobs`. -/
def collect_metrics_iteration (jobs : List SyncJob) (ms : MetricsState) :
    MetricsState :=
  record_app_metrics ms
    [("running_jobs", (jobs.countP (fun j => j.status = .running) : Int)),
     ("error_jobs", (jobs.countP (fun j => j.status = .error) : Int)),
     ("total_jobs", (jobs.length : Int))]

/-! ## Health monitor (health_checker.py) -/

/-- Embeds `HealthStatus` (health_checker.py, lines 24-29). -/
inductive HealthStatus where
  | healthy | unhealthy | degraded | unknown
  deriving Repr, DecidableEq

/-- Embeds `HealthChecker._get_overall_health_status` (health_checker.py,
lines 418-432) applied to the statuses of the recorded checks: Unknown
when nothing is recorded; else any Unhealthy wins, then any Degraded,
then all-Healthy, else Unknown. -/
def overall_health_status (statuses : List HealthStatus) : HealthStatus :=
  if statuses = [] then .unknown
  else if HealthStatus.unhealthy ∈ statuses then .unhealthy
  else if HealthStatus.degraded ∈ statuses then .degraded
  else if statuses.all (fun s => s = .healthy) then .healthy
  else .unknown

/-- Python `dict.get` over the summary mapping. -/
def summaryGet (s : List (String × SummaryValue)) (k : String) :
    Option SummaryValue :=
  (s.find? (fun p => p.1 = k)).map (fun p => p.2)

/-- Embeds the status computation of `HealthChecker._check_sync_jobs`
(health_checker.py, lines 317-352): it reads
`metrics_summary.get(KEY, 0)` for the keys `sync_error_jobs` and
`sync_active_jobs` and branches on the results.  A missing key yields the
default 0; an `N/A` entry under one of these keys would make the
comparison raise in Python, but the registry summary never carries these
keys at all (proved below), so the branch is vacuous and mapped to 0. -/
def check_sync_jobs (summary : List (String × SummaryValue)) : HealthStatus :=
  let error_jobs : Int :=
    match summaryGet summary "sync_error_jobs" with
    | some (.num v) => v
    | _ => 0
  let active_jobs : Int :=
    match summaryGet summary "sync_active_jobs" with
    | some (.num v) => v
    | _ => 0
  if 0 < error_jobs then .degraded
  else if 0 < active_jobs then .healthy
  else .unknown

/-! ## Concrete fixtures used to evaluate the definitions -/

/-- A small table configuration in the shape of the users table of the
end-to-end scenarios. -/
def usersTable : TableConfig :=
  { source_table := "users", target_table := "users",
    primary_key := "id", columns := ["id", "name"] }

/-- A job for the users table sitting in Stopped. -/
def stoppedUsersJob : SyncJob :=
  { table_config := usersTable, status := .stopped }

/-- A job for the users table sitting in Running. -/
def runningUsersJob : SyncJob :=
  { table_config := usersTable, status := .running }

/-- A job for the users table in Error with an exhausted error budget
(error_count 3 against the default max_retries 3). -/
def erroredUsersJob : SyncJob :=
  { table_config := usersTable, status := .error, error_count := 3 }

/-- Error policy of the backoff scenario of the spec: exponential backoff
on, delay cap 30000 ms. -/
def backoffConfig : ErrorHandlingConfig :=
  { exponential_backoff := true, max_retry_delay := 30000 }

/-- A retryable connection fault record with base delay 1000 ms and the
given retry count, used to evaluate the backoff table. -/
def backoffSample (rc : Nat) : SyncError :=
  { error_type := "ConnectionError", message := "connect failed",
    severity := .high, category := .connection,
    context := { retry_count := rc },
    original_exception := some .connectionError,
    retryable := true, max_retries := 3, retry_delay := 1000 }

/-- Error policy with the dead-letter queue disabled. -/
def noDlqConfig : ErrorHandlingConfig :=
  { dead_letter_queue := false }

/-- A non-retryable validation fault record with retry count 0. -/
def nonRetryableRecord : SyncError :=
  { error_type := "ValueError", message := "bad row",
    severity := .medium, category := .data_validation,
    context := {}, original_exception := some .valueError,
    retryable := false, max_retries := 3, retry_delay := 5000 }

/-- A table whose primary key names a column absent from its column
list. -/
def pkMismatchTable : TableConfig :=
  { source_table := "users", target_table := "users",
    primary_key := "id", columns := ["name"] }

/-- A configuration holding only `pkMismatchTable`, with both hosts
present. -/
def pkMismatchModel : ProductionConfigModel :=
  { postgres_host := "localhost", starrocks_host := "localhost",
    tables := [pkMismatchTable] }

/-- A table with an empty primary key. -/
def emptyPkTable : TableConfig :=
  { source_table := "users", target_table := "users",
    primary_key := "", columns := ["id"] }

/-- A configuration holding only `emptyPkTable`. -/
def emptyPkModel : ProductionConfigModel :=
  { postgres_host := "localhost", starrocks_host := "localhost",
    tables := [emptyPkTable] }

/-- Step faults where the logging call raises a RuntimeError. -/
def logFaultSample : StepFaults :=
  { log_fault := some .runtimeError }

/-- Whether an embedded `handle_error` call returned to its caller
normally rather than propagating a fault. -/
def completes_normally (r : Except ExcKind ErrorHandlerState) : Bool :=
  match r with
  | .ok _ => true
  | .error _ => false

/-! ## Theorems -/

/-- Helper: in a status trace that begins with Starting, any occurrence of
Running is preceded by an occurrence of Starting. -/
theorem starting_head_precedes (x : SyncStatus) (i : Nat)
    (h : ([SyncStatus.starting, x] : List SyncStatus).get? i = some .running) :
    ∃ j, j < i ∧ ([SyncStatus.starting, x] : List SyncStatus).get? j = some .starting := by
  match i with
  | 0 => simp at h
  | Nat.succ n => exact ⟨0, Nat.succ_pos n, rfl⟩

/-- C1: starting a job always assigns Starting before any Running can be
observed in the status trace of `_start_sync_job`, and stopping a job
whose status is Stopped ends with status Stopped. -/
theorem c1_starting_precedes_running_and_stop_idempotent :
    ∀ (now : Int) (job : SyncJob) (outcome : Except ExcKind Unit),
      (∀ i, ((start_sync_job now job outcome).2).get? i = some .running →
        ∃ j, j < i ∧ ((start_sync_job now job outcome).2).get? j = some .starting) ∧
      (job.status = .stopped → ((stop_sync_job job).1).status = .stopped) := by
  intro now job outcome
  constructor
  · cases outcome with
    | ok u => exact fun i hi => starting_head_precedes .running i hi
    | error e => exact fun i hi => starting_head_precedes .error i hi
  · intro h
    rfl

/-- Witness for C1 at a concrete Stopped job and a successful start. -/
theorem c1_witness :
    ((stop_sync_job stoppedUsersJob).1).status = .stopped ∧
    (∃ j, j < 1 ∧
      ((start_sync_job 0 stoppedUsersJob (.ok ())).2).get? j = some .starting) :=
  ⟨(c1_starting_precedes_running_and_stop_idempotent 0 stoppedUsersJob (.ok ())).2 rfl,
   (c1_starting_precedes_running_and_stop_idempotent 0 stoppedUsersJob (.ok ())).1 1 rfl⟩

/-- Helper: a job in Error whose error budget is exhausted passes through
the supervisory check unchanged and without a restart attempt. -/
theorem check_job_health_stuck (cfg : ErrorHandlingConfig) (now : Int)
    (job : SyncJob) (outcome : Except ExcKind Unit)
    (h1 : job.status = .error) (h2 : cfg.max_retries ≤ job.error_count) :
    check_job_health cfg now job outcome = (job, false, job.status) := by
  simp [check_job_health, h1, Nat.not_lt.mpr h2]

/-- C2: the supervisory check restarts a job exactly when it is in Error
with error_count below the configured max_retries; once the budget is
exhausted, any number of further supervisory iterations leaves the job
unchanged, still in Error, and never attempts the Starting transition. -/
theorem c2_supervisory_restart_budget :
    ∀ (cfg : ErrorHandlingConfig) (now : Int) (job : SyncJob)
      (outcome : Except ExcKind Unit),
      ((check_job_health cfg now job outcome).2.1 = true ↔
        (job.status = .error ∧ job.error_count < cfg.max_retries)) ∧
      (job.status = .error → cfg.max_retries ≤ job.error_count →
        (check_job_health cfg now job outcome).2.1 = false ∧
        ∀ steps : List (Int × Except ExcKind Unit),
          monitor_iterations cfg steps job = job ∧
          (monitor_iterations cfg steps job).status = .error) := by
  intro cfg now job outcome
  constructor
  · by_cases h1 : job.status = .error
    · by_cases h2 : job.error_count < cfg.max_retries
      · simp [check_job_health, h1, h2]
      · simp [check_job_health, h1, h2]
    · simp [check_job_health, h1]
  · intro h1 h2
    refine ⟨by simp [check_job_health_stuck cfg now job outcome h1 h2], ?_⟩
    intro steps
    have key : monitor_iterations cfg steps job = job := by
      induction steps with
      | nil => rfl
      | cons s ss ih =>
        have hstep : (check_job_health cfg s.1 job s.2).1 = job := by
          rw [check_job_health_stuck cfg s.1 job s.2 h1 h2]

        simp [monitor_iterations, List.foldl_cons] at ih ⊢
        rw [hstep]
        exact ih
    exact ⟨key, by rw [key]; exact h1⟩

/-- Witness for C2 at a job in Error with exhausted budget under the
default policy. -/
theorem c2_witness :
    (check_job_health {} 0 erroredUsersJob (.ok ())).2.1 = false ∧
    monitor_iterations {} [(0, .ok ()), (1, .error .runtimeError)] erroredUsersJob
      = erroredUsersJob ∧
    (monitor_iterations {} [(0, .ok ()), (1, .error .runtimeError)] erroredUsersJob).status
      = .error :=
  ⟨((c2_supervisory_restart_budget {} 0 erroredUsersJob (.ok ())).2 rfl (by decide)).1,
   ((c2_supervisory_restart_budget {} 0 erroredUsersJob (.ok ())).2 rfl (by decide)).2
     [(0, .ok ()), (1, .error .runtimeError)]⟩

/-- C4: the retry delay is `min (base * 2 ^ retry_count) max_retry_delay`
with exponential backoff enabled and the base delay otherwise; with base
1000 ms and cap 30000 ms the delays for retry counts 0..5 are 1000, 2000,
4000, 8000, 16000, 30000 ms. -/
theorem c4_backoff_delay :
    (∀ (cfg : ErrorHandlingConfig) (e : SyncError),
      (cfg.exponential_backoff = true →
        calculate_retry_delay cfg e =
          min (e.retry_delay * 2 ^ e.context.retry_count) cfg.max_retry_delay) ∧
      (cfg.exponential_backoff = false →
        calculate_retry_delay cfg e = e.retry_delay)) ∧
    (List.range 6).map (fun rc => calculate_retry_delay backoffConfig (backoffSample rc)) =
      [1000, 2000, 4000, 8000, 16000, 30000] := by
  constructor
  · intro cfg e
    constructor
    · intro h; simp [calculate_retry_delay, h]
    · intro h; simp [calculate_retry_delay, h]
  · decide

/-- Witness for C4 at the retryable connection record with retry count 3
under the backoff policy of the spec scenario. -/
theorem c4_witness :
    calculate_retry_delay backoffConfig (backoffSample 3) =
      min ((backoffSample 3).retry_delay * 2 ^ (backoffSample 3).context.retry_count)
        backoffConfig.max_retry_delay :=
  (c4_backoff_delay.1 backoffConfig (backoffSample 3)).1 rfl

/-- C5: classification is a pure function of the fault class (the context
argument is never read), and the classification table holds: connection
and timeout faults give High/Connection/retryable, validation and type
faults give Medium/DataValidation/non-retryable, interrupt and exit
faults give Critical with category Unknown (so in particular neither
Connection nor DataValidation) and are non-retryable, memory and OS
faults give category System
and retryable, and a fault matching none of the listed classes gives
Medium/Unknown/retryable. -/
theorem c5_classification_table :
    ∀ (ctx ctx' : ErrorContext),
      (∀ e, determine_severity e ctx = determine_severity e ctx' ∧
            determine_category e ctx = determine_category e ctx' ∧
            is_retryable e ctx = is_retryable e ctx') ∧
      (∀ e, isConnectionOrTimeout e = true →
        determine_severity e ctx = .high ∧
        determine_category e ctx = .connection ∧
        is_retryable e ctx = true) ∧
      (∀ e, isValueOrType e = true →
        determine_severity e ctx = .medium ∧
        determine_category e ctx = .data_validation ∧
        is_retryable e ctx = false) ∧
      (∀ e, isInterruptOrExit e = true →
        determine_severity e ctx = .critical ∧
        determine_category e ctx = .unknown ∧
        is_retryable e ctx = false) ∧
      (determine_category .memoryError ctx = .system ∧
        is_retryable .memoryError ctx = true ∧
        determine_category .osError ctx = .system ∧
        is_retryable .osError ctx = true) ∧
      (∀ e, isConnectionOrTimeout e = false → isValueOrType e = false →
        isInterruptOrExit e = false → isMemoryOrOS e = false →
        determine_severity e ctx = .medium ∧
        determine_category e ctx = .unknown ∧
        is_retryable e ctx = true) := by
  intro ctx ctx'
  refine ⟨fun e => ⟨rfl, rfl, rfl⟩, ?_, ?_, ?_, ⟨rfl, rfl, rfl, rfl⟩, ?_⟩
  · intro e he
    cases e <;> simp_all [determine_severity, determine_category, is_retryable,
      isConnectionOrTimeout, isValueOrType, isInterruptOrExit, isMemoryOrOS]
  · intro e he
    cases e <;> simp_all [determine_severity, determine_category, is_retryable,
      isConnectionOrTimeout, isValueOrType, isInterruptOrExit, isMemoryOrOS]
  · intro e he
    cases e <;> simp_all [determine_severity, determine_category, is_retryable,
      isConnectionOrTimeout, isValueOrType, isInterruptOrExit, isMemoryOrOS]
  · intro e h1 h2 h3 h4
    cases e <;> simp_all [determine_severity, determine_category, is_retryable,
      isConnectionOrTimeout, isValueOrType, isInterruptOrExit, isMemoryOrOS]

/-- Witness for C5 at a connection fault with the default context. -/
theorem c5_witness :
    determine_severity .connectionError {} = .high ∧
    determine_category .connectionError {} = .connection ∧
    is_retryable .connectionError {} = true :=
  (c5_classification_table {} {}).2.1 .connectionError rfl

/-- C3 counterexample: with the dead-letter flag disabled in the error
policy, a non-retryable record entering the retry dispatch is dropped
entirely: the handler state is unchanged and the dead-letter queue stays
empty, so the record is not moved to the dead-letter sink as the claim
states. -/
theorem c3_counterexample :
    dispatch_retry noDlqConfig {} nonRetryableRecord = ({} : ErrorHandlerState) ∧
    (dispatch_retry noDlqConfig {} nonRetryableRecord).dead_letter_queue = [] ∧
    nonRetryableRecord.retryable = false := by
  refine ⟨rfl, rfl, rfl⟩

/-- C3 amended: provided the dead-letter queue is enabled in the error
policy (the source default), a record that is non-retryable or whose
retry count has reached its max_retries is appended unchanged to the
dead-letter queue and no retry is scheduled. -/
theorem c3_terminal_records_dead_lettered :
    ∀ (cfg : ErrorHandlingConfig) (st : ErrorHandlerState) (e : SyncError),
      cfg.dead_letter_queue = true →
      (e.retryable = false ∨ e.max_retries ≤ e.context.retry_count) →
      (dispatch_retry cfg st e).dead_letter_queue = st.dead_letter_queue ++ [e] ∧
      (dispatch_retry cfg st e).scheduled_retries = st.scheduled_retries := by
  intro cfg st e hdlq hterm
  rcases hterm with h | h
  · simp [dispatch_retry, handle_non_retryable_error, send_to_dead_letter_queue, h, hdlq]
  · by_cases hr : e.retryable
    · simp [dispatch_retry, handle_retry, send_to_dead_letter_queue, h, hr, hdlq]
    · simp [dispatch_retry, handle_non_retryable_error, send_to_dead_letter_queue, hr, hdlq]

/-- Witness for C3 at the concrete non-retryable record under the default
policy. -/
theorem c3_witness :
    (dispatch_retry {} {} nonRetryableRecord).dead_letter_queue =
      ({} : ErrorHandlerState).dead_letter_queue ++ [nonRetryableRecord] ∧
    (dispatch_retry {} {} nonRetryableRecord).scheduled_retries =
      ({} : ErrorHandlerState).scheduled_retries :=
  c3_terminal_records_dead_lettered {} {} nonRetryableRecord rfl (Or.inl rfl)

/-- C6 counterexample: a configuration whose only table has primary key
`id` and column list `[name]` passes validation with an empty violation
list even though the primary key is not a member of the columns. -/
theorem c6_counterexample :
    validate_config pkMismatchModel = [] ∧
    pkMismatchTable.columns.contains pkMismatchTable.primary_key = false := by
  refine ⟨rfl, by decide⟩

/-- C6 amended: validation flags a primary-key violation exactly for an
empty primary key, not for a primary key missing from the column list:
whenever some table of the configuration has an empty primary key, the
returned violation list is non-empty and contains the primary-key
violation for that table. -/
theorem c6_empty_primary_key_flagged :
    ∀ (m : ProductionConfigModel) (t : TableConfig),
      t ∈ m.tables → t.primary_key = "" →
      ("Primary key is required for table " ++ tableRepr t) ∈ validate_config m ∧
      0 < (validate_config m).length := by
  intro m t ht hpk
  have hmem : ("Primary key is required for table " ++ tableRepr t) ∈ validate_config m := by
    unfold validate_config
    refine List.mem_append.mpr (Or.inr ?_)
    refine List.mem_flatMap.mpr ⟨t, ht, ?_⟩
    simp [hpk]
  exact ⟨hmem, List.length_pos.mpr (List.ne_nil_of_mem hmem)⟩

/-- Witness for C6 at the configuration whose only table has an empty
primary key. -/
theorem c6_witness :
    ("Primary key is required for table " ++ tableRepr emptyPkTable) ∈
      validate_config emptyPkModel ∧
    0 < (validate_config emptyPkModel).length :=
  c6_empty_primary_key_flagged emptyPkModel emptyPkTable (by decide) rfl

/-- C7 counterexample: with no recorded probe result the fold would give
Healthy (every probe is vacuously Healthy), but the code returns Unknown
for an empty check map. -/
theorem c7_counterexample :
    overall_health_status [] = .unknown ∧
    ([] : List HealthStatus).all (fun s => s = .healthy) = true ∧
    decide (overall_health_status [] = HealthStatus.healthy) = false := by
  decide

/-- C7 amended: for every recorded probe set, any Unhealthy probe forces
overall Unhealthy; otherwise any Degraded probe forces Degraded;
otherwise, when at least one probe is recorded and all are Healthy the
overall status is Healthy, and when at least one probe is recorded and
not all are Healthy it is Unknown; with no recorded probe the overall
status is Unknown.  The overall status is Healthy only when every probe
is Healthy. -/
theorem c7_overall_health_fold :
    ∀ (statuses : List HealthStatus),
      (HealthStatus.unhealthy ∈ statuses →
        overall_health_status statuses = .unhealthy) ∧
      (HealthStatus.unhealthy ∉ statuses → HealthStatus.degraded ∈ statuses →
        overall_health_status statuses = .degraded) ∧
      (statuses ≠ [] → HealthStatus.unhealthy ∉ statuses →
        HealthStatus.degraded ∉ statuses → (∀ s ∈ statuses, s = .healthy) →
        overall_health_status statuses = .healthy) ∧
      (statuses ≠ [] → HealthStatus.unhealthy ∉ statuses →
        HealthStatus.degraded ∉ statuses → ¬(∀ s ∈ statuses, s = .healthy) →
        overall_health_status statuses = .unknown) ∧
      (overall_health_status statuses = .healthy → ∀ s ∈ statuses, s = .healthy) := by
  intro statuses
  refine ⟨?_, ?_, ?_, ?_, ?_⟩
  · intro h
    have hne : statuses ≠ [] := List.ne_nil_of_mem h
    simp [overall_health_status, hne, h]
  · intro h1 h2
    have hne : statuses ≠ [] := List.ne_nil_of_mem h2
    simp [overall_health_status, hne, h1, h2]
  · intro hne h1 h2 h3
    have hall : statuses.all (fun s => s = .healthy) = true := by
      simp only [List.all_eq_true, decide_eq_true_eq]
      exact h3
    simp [overall_health_status, hne, h1, h2, hall]
  · intro hne h1 h2 h3
    have hall : ¬(statuses.all (fun s => s = .healthy) = true) := by
      simp only [List.all_eq_true, decide_eq_true_eq]
      exact h3
    simp [overall_health_status, hne, h1, h2, hall]
  · intro h s hs
    by_contra hcon
    by_cases hu : HealthStatus.unhealthy ∈ statuses
    · simp [overall_health_status, List.ne_nil_of_mem hu, hu] at h
    · by_cases hd : HealthStatus.degraded ∈ statuses
      · simp [overall_health_status, List.ne_nil_of_mem hd, hu, hd] at h
      · have hall : ¬(statuses.all (fun s => s = .healthy) = true) := by
          simp only [List.all_eq_true, decide_eq_true_eq]
          intro hforall
          exact hcon (hforall s hs)
        have hne : statuses ≠ [] := by
          intro hnil
          rw [hnil] at hs
          cases hs
        simp [overall_health_status, hne, hu, hd, hall] at h

/-- Witness for C7: one Unhealthy probe among Healthy probes forces
Unhealthy, and two Healthy probes give Healthy. -/
theorem c7_witness :
    overall_health_status [.healthy, .unhealthy, .healthy] = .unhealthy ∧
    overall_health_status [.healthy, .healthy] = .healthy :=
  ⟨(c7_overall_health_fold [.healthy, .unhealthy, .healthy]).1 (by decide),
   (c7_overall_health_fold [.healthy, .healthy]).2.2.1 (by decide) (by decide)
     (by decide) (by decide)⟩

/-- C8: the sync_jobs probe never reports Degraded or Healthy, because it
looks the gauges up in the metrics summary under the exported names
sync_error_jobs and sync_active_jobs, while the summary is keyed by the
internal registry names error_jobs and active_jobs; for every registry
state the probe computes Unknown, in particular with the error gauge at
2 where the claim requires Degraded. -/
theorem c8_sync_jobs_probe_always_unknown :
    (∀ ms : MetricsState, check_sync_jobs (get_metrics_summary ms) = .unknown) ∧
    check_sync_jobs (get_metrics_summary { active_jobs := 0, error_jobs := 2 }) = .unknown ∧
    decide (check_sync_jobs (get_metrics_summary { active_jobs := 0, error_jobs := 2 })
      = HealthStatus.degraded) = false := by
  refine ⟨fun ms => rfl, rfl, by decide⟩

/-- C9: the metrics loop publishes only the error-jobs count: for every
job set and registry state, the iteration leaves the active-jobs gauge
untouched and sets the error-jobs gauge to the Error count; the keys
running_jobs and total_jobs are not registered metrics, so those two
counts are silently dropped — with one Running job and a fresh registry,
the registry still reads zero everywhere after the iteration. -/
theorem c9_metrics_loop_drops_running_and_total :
    (∀ (jobs : List SyncJob) (ms : MetricsState),
      (collect_metrics_iteration jobs ms).active_jobs = ms.active_jobs ∧
      (collect_metrics_iteration jobs ms).error_jobs =
        (jobs.countP (fun j => j.status = .error) : Int)) ∧
    metricNames.contains "running_jobs" = false ∧
    metricNames.contains "total_jobs" = false ∧
    collect_metrics_iteration [runningUsersJob] {} = ({} : MetricsState) := by
  refine ⟨fun jobs ms => ⟨rfl, rfl⟩, by decide, by decide, rfl⟩

/-- C10: whenever the faults raised inside the body of handle_error all
derive from Exception (which covers every failure its logging, monitoring
and bookkeeping steps can deterministically raise), handle_error returns
normally to its caller for every handled exception and every optional
context: the outer except-Exception clause absorbs the internal fault. -/
theorem c10_handle_error_never_raises :
    ∀ (cfg : ErrorHandlingConfig) (st : ErrorHandlerState) (exc : ExcKind)
      (msg : String) (ectx : Option ErrorContext) (f : StepFaults),
      f.catchable = true →
      completes_normally (handle_error cfg st exc msg ectx f) = true := by
  intro cfg st exc msg ectx f hf
  rcases f with ⟨lf, mf, rf⟩
  cases lf <;> cases mf <;> cases rf <;>
    simp_all [StepFaults.catchable, Option.all, handle_error,
      send_to_monitoring_escape, outer_catch, completes_normally]

/-- Witness for C10: a ValueError handled with no caller context while the
logging step itself raises a RuntimeError still returns normally. -/
theorem c10_witness :
    completes_normally (handle_error {} {} .valueError "boom" none logFaultSample) = true :=
  c10_handle_error_never_raises {} {} .valueError "boom" none logFaultSample (by decide)

end CDCSync
